import Mathlib

/-!  Verification of the request-construction pipeline of the Kraken exchange
     REST client (`src/kraken_api.rs`): the option registry, the endpoint
     query-string builder, nonce handling, and the private-call signing
     protocol.  Machine integers are modelled as `Nat`; the third-party
     cryptographic digests (SHA-256, HMAC-SHA-512 from openssl) are abstract
     function parameters, while base64 encoding/decoding is implemented
     concretely so that the pipeline is executable.  -/

set_option maxRecDepth 10000

namespace KrakenApi

/-- The closed enumeration `API_Option` of optional arguments recognised by the
    client (source lines 117-271). -/
inductive API_Option
  | INFO | ACLASS | ASSET | TRADES | USERREF | START | END | OFS
  | CLOSE_TIME | DO_CALCS | PAIR | FEE_INFO | OFLAGS | START_TIME | END_TIME
  | FORMAT | FIELDS | EXPIRE_TIME | VALIDATE | DEADLINE | ORDER_TYPE | TYPE
  | CLOSE_TYPE | CLOSE_PRICE_1 | CLOSE_PRICE_2 | PRICE | PRICE_2 | TRIGGER
  | LEVERAGE | TIME_IN_FORCE | VOLUME | INTERVAL | TIMEOUT | SINCE | COUNT
  | TXID | CONSOLIDATION | ID | CANCEL_RESPONSE | REPORT | DESCRIPTION
  | __CEILING
deriving DecidableEq

/-- Wire names of the options, `kraken_argument` (source lines 1080-1124). -/
def kraken_argument : API_Option → String
  | .INFO => "info"
  | .ACLASS => "aclass"
  | .ASSET => "asset"
  | .TRADES => "trades"
  | .USERREF => "userref"
  | .START => "start"
  | .END => "end"
  | .OFS => "ofs"
  | .CLOSE_TIME => "closetime"
  | .DO_CALCS => "docalcs"
  | .PAIR => "pair"
  | .FEE_INFO => "fee-info"
  | .OFLAGS => "oflags"
  | .START_TIME => "starttm"
  | .END_TIME => "endtm"
  | .EXPIRE_TIME => "expiretm"
  | .FORMAT => "format"
  | .FIELDS => "fields"
  | .VALIDATE => "validate"
  | .DEADLINE => "deadline"
  | .ORDER_TYPE => "ordertype"
  | .LEVERAGE => "leverage"
  | .TIME_IN_FORCE => "timeinforce"
  | .VOLUME => "volume"
  | .TYPE => "type"
  | .CLOSE_TYPE => "close[ordertype]"
  | .CLOSE_PRICE_1 => "close[price]"
  | .CLOSE_PRICE_2 => "close[price2]"
  | .PRICE => "price"
  | .PRICE_2 => "price2"
  | .TRIGGER => "trigger"
  | .INTERVAL => "interval"
  | .TIMEOUT => "timeout"
  | .SINCE => "since"
  | .COUNT => "count"
  | .TXID => "txid"
  | .CONSOLIDATION => "consolidation"
  | .ID => "id"
  | .CANCEL_RESPONSE => "cancel_response"
  | .DESCRIPTION => "description"
  | .REPORT => "report"
  | .__CEILING => ""

/-- Buy/sell instruction (source lines 278-289). -/
inductive Instruction
  | BUY | SELL
deriving DecidableEq

/-- `Instruction::as_kraken_string` (source lines 284-289). -/
def Instruction.as_kraken_string : Instruction → String
  | .BUY => "buy"
  | .SELL => "sell"

/-- Order types (source lines 294-335). -/
inductive Order_Type
  | MARKET | LIMIT | STOP_LOSS | TAKE_PROFIT | STOP_LOSS_PROFIT
  | STOP_LOSS_PROFIT_LIMIT | STOP_LOSS_LIMIT | TAKE_PROFIT_LIMIT
  | TRAILING_STOP | TRAILING_STOP_LIMIT | STOP_LOSS_AND_LIMIT
  | SETTLE_POSITION
deriving DecidableEq

/-- `Order_Type::as_kraken_string` (source lines 337-352). -/
def Order_Type.as_kraken_string : Order_Type → String
  | .MARKET => "market"
  | .LIMIT => "limit"
  | .STOP_LOSS => "stop-loss"
  | .TAKE_PROFIT => "take-profit"
  | .STOP_LOSS_PROFIT => "stop-loss-profit"
  | .STOP_LOSS_PROFIT_LIMIT => "stop-loss-profit-limit"
  | .STOP_LOSS_LIMIT => "stop-loss-limit"
  | .TAKE_PROFIT_LIMIT => "take-profit-limit"
  | .TRAILING_STOP => "trailing-stop"
  | .TRAILING_STOP_LIMIT => "trailing-stop-limit"
  | .STOP_LOSS_AND_LIMIT => "stop-loss-and-limit"
  | .SETTLE_POSITION => "settle-position"

/-- The client handle (source lines 406-410).  The Rust `HashMap<Opt,String>`
    option registry is modelled extensionally as a lookup function; `get` on
    the hash map corresponds to applying the function. -/
structure Kraken_API where
  key : String := ""
  secret : String := ""
  query_url : String := ""
  options : API_Option → Option String := fun _ => none

/-- Fixed base URL (source line 414). -/
def url_base : String := "https://api.kraken.com/0"

/-- `connect` (source lines 430-431): stores key and secret, defaults the
    rest; performs no validation. -/
def connect (key secret : String) : Kraken_API :=
  { key := key, secret := secret }

/-- `Kraken_API::set_opt` (source lines 443-445): insert into the registry,
    overwriting any prior value. -/
def set_opt (K : Kraken_API) (o : API_Option) (value : String) : Kraken_API :=
  { K with options := fun q => if q = o then some value else K.options q }

/-- `Kraken_API::clear_opt` (source lines 452-453). -/
def clear_opt (K : Kraken_API) (o : API_Option) : Kraken_API :=
  { K with options := fun q => if q = o then none else K.options q }

/-- `Kraken_API::clear_all_options` (source line 462). -/
def clear_all_options (K : Kraken_API) : Kraken_API :=
  { K with options := fun _ => none }

/-- A sequence of `set_opt` calls, applied left to right. -/
def set_many (K : Kraken_API) (l : List (API_Option × String)) : Kraken_API :=
  l.foldl (fun K p => set_opt K p.1 p.2) K

/-- First-match association lookup, the reference meaning of "the registry
    contains exactly the entries of l" for duplicate-free l. -/
def lookup_val (o : API_Option) : List (API_Option × String) → Option String
  | [] => none
  | (k, v) :: rest => if o = k then some v else lookup_val o rest

/-- The loop body of `query_add_options` (source lines 1128-1134): walk the
    whitelist in order; for each option present in the registry append
    joiner-char ++ wire-name ++ "=" ++ value, where the joiner is the given
    character for the first emission and '&' afterwards (the
    `std::mem::replace (&mut joiner, '&')`). -/
def query_options_string (options : API_Option → Option String) :
    List API_Option → Char → String
  | [], _ => ""
  | o :: rest, joiner =>
    match options o with
    | some v =>
        (String.singleton joiner ++ kraken_argument o ++ "=" ++ v)
          ++ query_options_string options rest '&'
    | none => query_options_string options rest joiner

/-- `query_add_options` (source lines 1128-1134): append the serialized
    options onto `query_url`. -/
def query_add_options (K : Kraken_API) (permitted : List API_Option)
    (joiner : Char) : Kraken_API :=
  { K with query_url := K.query_url ++ query_options_string K.options permitted joiner }

/-- Marker for the `do_query` function pointer passed to `api_function`
    (source lines 971-980): either `query_public` or `query_private`. -/
inductive Query_Fn
  | query_public_fn | query_private_fn
deriving DecidableEq

/-- The request an endpoint method hands to its `do_query`: the endpoint
    name, the whitelist it passed, the state after query building, and which
    transport function it selected. -/
structure Api_Request where
  end_point : String
  whitelist : List API_Option
  K : Kraken_API
  do_query : Query_Fn

/-- `api_function` (source lines 971-980): set `query_url` to the endpoint
    name, run `query_add_options` with initial joiner '?', then invoke
    `do_query` on the resulting state. -/
def api_function (K : Kraken_API) (end_point : String)
    (options : List API_Option) (do_query : Query_Fn) : Api_Request :=
  { end_point := end_point,
    whitelist := options,
    K := query_add_options { K with query_url := end_point } options '?',
    do_query := do_query }

/-- `Kraken_API::delete_export_report` (source lines 716-724): asserts that
    `type_` is exactly "delete" or "cancel" (a panic — modelled as `none` —
    otherwise), then sets the ID and TYPE options and dispatches the
    RemoveExport private request. -/
def delete_export_report (K : Kraken_API) (id type_ : String) :
    Option Api_Request :=
  if type_ = "delete" ∨ type_ = "cancel" then
    let K := set_opt K .ID id
    let K := set_opt K .TYPE type_
    some (api_function K "RemoveExport" [.ID, .TYPE] .query_private_fn)
  else none

/-- `Kraken_API::add_order` (source lines 746-767); the `volume` display
    argument is modelled by its string rendering. -/
def add_order (K : Kraken_API) (order_type : Order_Type)
    (direction : Instruction) (volume pair : String) : Api_Request :=
  let K := set_opt K .ORDER_TYPE order_type.as_kraken_string
  let K := set_opt K .TYPE direction.as_kraken_string
  let K := set_opt K .VOLUME volume
  let K := set_opt K .PAIR pair
  api_function K "AddOrder"
    [.ORDER_TYPE, .TYPE, .VOLUME,
     .PAIR, .USERREF, .PRICE,
     .PRICE_2, .TRIGGER, .LEVERAGE,
     .OFLAGS, .TIME_IN_FORCE,
     .START_TIME, .EXPIRE_TIME,
     .CLOSE_TYPE, .CLOSE_PRICE_1,
     .CLOSE_PRICE_2, .DEADLINE, .VALIDATE]
    .query_private_fn

/-- `Kraken_API::edit_order` (source lines 781-796). -/
def edit_order (K : Kraken_API) (tx_id pair : String) : Api_Request :=
  let K := set_opt K .TXID tx_id
  let K := set_opt K .PAIR pair
  api_function K "AddOrder"
    [.ORDER_TYPE, .VOLUME,
     .PAIR, .USERREF, .PRICE,
     .PRICE_2, .OFLAGS,
     .DEADLINE, .VALIDATE,
     .TXID, .CANCEL_RESPONSE]
    .query_private_fn

/-!  Base64, as used through `openssl::base64::{decode_block, encode_block}`:
     strict standard-alphabet base64; decoding rejects any character outside
     the alphabet, a length not a multiple of four, or more than two '='
     padding characters.  -/

/-- Value of one base64 alphabet character, `none` for invalid ones. -/
def b64_char_val (c : Char) : Option Nat :=
  if 'A' ≤ c ∧ c ≤ 'Z' then some (c.toNat - 'A'.toNat)
  else if 'a' ≤ c ∧ c ≤ 'z' then some (c.toNat - 'a'.toNat + 26)
  else if '0' ≤ c ∧ c ≤ '9' then some (c.toNat - '0'.toNat + 52)
  else if c = '+' then some 62
  else if c = '/' then some 63
  else none

/-- Reassemble bytes from a list of sextet values. -/
def b64_group_bytes : List Nat → List Nat
  | a :: b :: c :: d :: rest =>
      (a * 4 + b / 16) :: ((b % 16) * 16 + c / 4) :: ((c % 4) * 64 + d)
        :: b64_group_bytes rest
  | [a, b] => [a * 4 + b / 16]
  | [a, b, c] => [a * 4 + b / 16, (b % 16) * 16 + c / 4]
  | _ => []

/-- Strict base64 decoding of a string to bytes (each a `Nat` below 256). -/
def b64_decode (s : String) : Option (List Nat) :=
  if s.length % 4 ≠ 0 then none
  else
    let cs := s.data
    let pad := (cs.reverse.takeWhile (fun c => c = '=')).length
    if 2 < pad then none
    else (((cs.take (cs.length - pad)).mapM b64_char_val).map b64_group_bytes)

/-- The base64 alphabet in index order. -/
def b64_alphabet : List Char :=
  "ABCDEFGHIJKLMNOPQRSTUVWXYZabcdefghijklmnopqrstuvwxyz0123456789+/".data

/-- Base64 digit for a sextet value. -/
def b64_digit (n : Nat) : Char := b64_alphabet.getD n 'A'

/-- Encode bytes into base64 characters, with '=' padding. -/
def b64_encode_groups : List Nat → List Char
  | b1 :: b2 :: b3 :: rest =>
      b64_digit (b1 / 4) :: b64_digit ((b1 % 4) * 16 + b2 / 16)
        :: b64_digit ((b2 % 16) * 4 + b3 / 64) :: b64_digit (b3 % 64)
        :: b64_encode_groups rest
  | [b1, b2] => [b64_digit (b1 / 4), b64_digit ((b1 % 4) * 16 + b2 / 16),
                 b64_digit ((b2 % 16) * 4), '=']
  | [b1] => [b64_digit (b1 / 4), b64_digit ((b1 % 4) * 16), '=', '=']
  | [] => []

/-- Base64 encoding of a byte list. -/
def b64_encode (bs : List Nat) : String := String.mk (b64_encode_groups bs)

/-- Bytes of a string (the sources only ever sign ASCII data, where the UTF-8
    bytes are the character codes). -/
def str_bytes (s : String) : List Nat := s.data.map Char.toNat

/-- The nonce of one private call (source lines 1012-1015): the clock reading
    — microseconds since the UNIX epoch — rendered in decimal.  The handle
    keeps no nonce state; each call uses the current reading alone. -/
def next_nonce (clock_micros : Nat) : String := toString clock_micros

/-- The numeric value of the nonce issued at a given clock reading: the
    reading itself, unmodified (source lines 1012-1015 apply no `max` with
    any retained previous value — `Kraken_API` has no nonce field). -/
def nonce_of_call (clock_micros : Nat) : Nat := clock_micros

/-- The nonces issued by a sequence of private calls whose clock readings
    are the given list. -/
def issued_nonces (clocks : List Nat) : List String := clocks.map next_nonce

/-- The `K.query_url.split ('?')` step of `query_private` (source lines
    1017-1019): the fragment before the first '?' and the fragment between
    the first and second '?' (empty when there is no '?', mirroring
    `S.next ().unwrap_or ("")`). -/
def split_query_url (q : String) : String × String :=
  let first := q.data.takeWhile (fun ch => ch ≠ '?')
  match q.data.dropWhile (fun ch => ch ≠ '?') with
  | [] => (String.mk first, "")
  | _ :: rest => (String.mk first, String.mk (rest.takeWhile (fun ch => ch ≠ '?')))

/-- The POST body construction of `query_private` (source lines 1021-1024):
    `format! ("{}{}nonce={}", post_data, if post_data.is_empty () then "" else "&", nonce)`. -/
def post_body_of (post_data nonce : String) : String :=
  post_data ++ (if post_data.isEmpty then "" else "&") ++ "nonce=" ++ nonce

/-- The API-Sign value computation of `query_private` (source lines
    1039-1058): HMAC-SHA-512 keyed with the base64-decoded secret, fed the
    bytes of "/0/private/", then the bytes of the path, then the SHA-256
    digest of nonce ++ body; the MAC output is base64-encoded.  `none` models
    the `.unwrap ()` panic on an undecodable secret.  The digest and MAC are
    abstract parameters. -/
def api_sign (sha256 : List Nat → List Nat)
    (hmac_sha512 : List Nat → List Nat → List Nat)
    (secret query_url nonce post_data : String) : Option String :=
  (b64_decode secret).map fun key =>
    b64_encode (hmac_sha512 key
      (str_bytes "/0/private/" ++ str_bytes query_url
        ++ sha256 (str_bytes (nonce ++ post_data))))

/-- The specification's five-step signature pipeline (§4.4 of the spec),
    written from the spec's words for comparison with `api_sign`:
    (1) message = nonce ++ body; (2) raw SHA-256 digest of the message;
    (3) signing input = "/0/private/" ++ endpoint path ++ digest bytes;
    (4) HMAC-SHA-512 over the signing input keyed with the decoded secret;
    (5) base64-encode the MAC. -/
def spec_signature (sha256 : List Nat → List Nat)
    (hmac_sha512 : List Nat → List Nat → List Nat)
    (key : List Nat) (end_point nonce body : String) : String :=
  let message := str_bytes nonce ++ str_bytes body
  let digest := sha256 message
  let signing_input := str_bytes "/0/private/" ++ str_bytes end_point ++ digest
  b64_encode (hmac_sha512 key signing_input)

/-- Outcome of the pure, pre-network part of a transport function: an error
    returned to the caller, a process abort (an `unwrap` firing), or an HTTP
    request actually handed to the transport (its URL, POST body and extra
    headers). -/
inductive Private_Result
  | err (msg : String)
  | panicked
  | request (url : String) (post_body : String) (headers : List String)
deriving DecidableEq

/-- `query_private` (source lines 1007-1076) up to the point where the
    network transfer is performed: length gate on the secret, nonce from the
    clock, path/parameter split, body construction, and the two
    authentication headers.  A `request` value is produced exactly when the
    source reaches `C.perform ()`. -/
def query_private (sha256 : List Nat → List Nat)
    (hmac_sha512 : List Nat → List Nat → List Nat)
    (K : Kraken_API) (clock_micros : Nat) : Private_Result :=
  if K.secret.length ≠ 88 then .err "private key must be 88 characters long"
  else
    let nonce := next_nonce clock_micros
    let query_url := (split_query_url K.query_url).1
    let post_data := post_body_of (split_query_url K.query_url).2 nonce
    match api_sign sha256 hmac_sha512 K.secret query_url nonce post_data with
    | none => .panicked
    | some sig =>
        .request (url_base ++ "/private/" ++ query_url) post_data
          ["API-Key: " ++ K.key, "API-Sign: " ++ sig]

/-- `query_public` (source lines 984-1003) up to the network transfer: a GET
    of the public URL, no body, no authentication headers, and no check on
    the credentials whatsoever. -/
def query_public (K : Kraken_API) : Private_Result :=
  .request (url_base ++ "/public/" ++ K.query_url) "" []

/-- The POST body of the request a transport outcome carries, if any. -/
def result_body : Private_Result → Option String
  | .request _ b _ => some b
  | _ => none

/-- The headers of the request a transport outcome carries, if any. -/
def result_headers : Private_Result → Option (List String)
  | .request _ _ h => some h
  | _ => none

/-- The whitelisted name=value pairs actually present in the registry, in
    whitelist order (spec §4.2's words). -/
def spec_pairs (options : API_Option → Option String)
    (whitelist : List API_Option) : List String :=
  whitelist.filterMap fun o => (options o).map fun v => kraken_argument o ++ "=" ++ v

/-- '&'-join a list of pairs, each preceded by '&'. -/
def amp_join : List String → String
  | [] => ""
  | p :: ps => "&" ++ p ++ amp_join ps

/-- The spec's query string (§4.2): empty when no whitelisted option is set,
    otherwise '?' before the first pair and '&' before each subsequent one. -/
def spec_query (options : API_Option → Option String)
    (whitelist : List API_Option) : String :=
  match spec_pairs options whitelist with
  | [] => ""
  | p :: ps => "?" ++ p ++ amp_join ps

/-- An example registry: START set to "2", TXID set to "x", nothing else. -/
def ex_registry : API_Option → Option String :=
  fun o => if o = .START then some "2" else if o = .TXID then some "x" else none

/-- An 88-character well-formed base64 secret (86 'A's and two '='), which
    decodes to 64 zero bytes. -/
def good_secret : String := String.mk (List.replicate 86 'A' ++ ['=', '='])

/-- An 88-character string that is not valid base64. -/
def bad_secret : String := String.mk (List.replicate 88 '!')

/-- Second argument when present, first otherwise: the effect of a later
    registry write over an earlier state. -/
def override (base : Option String) : Option String → Option String
  | none => base
  | some v => some v

/-!  Theorems.  -/

/-- The bytes of a concatenation are the concatenated bytes. -/
theorem str_bytes_append (a b : String) :
    str_bytes (a ++ b) = str_bytes a ++ str_bytes b := by
  simp [str_bytes]

/-- Looking up an identifier that no pair of the list carries yields
    nothing. -/
theorem lookup_val_eq_none {o : API_Option} :
    ∀ {l : List (API_Option × String)}, o ∉ l.map Prod.fst → lookup_val o l = none
  | [], _ => rfl
  | (k, v) :: rest, h => by
    have hk : o ≠ k := by
      intro e; exact h (by simp [e])
    have : o ∉ rest.map Prod.fst := fun m => h (by simp [m])
    simp [lookup_val, hk, lookup_val_eq_none this]

/-- Registry state after a duplicate-free sequence of `set_opt` calls: each
    written identifier holds its written value, the rest keep the prior
    state. -/
theorem set_many_options :
    ∀ (l : List (API_Option × String)) (K : Kraken_API) (o : API_Option),
      (l.map Prod.fst).Nodup →
      (set_many K l).options o = override (K.options o) (lookup_val o l)
  | [], K, o, _ => rfl
  | (k, v) :: rest, K, o, h => by
    rw [List.map_cons, List.nodup_cons] at h
    have step : set_many K ((k, v) :: rest) = set_many (set_opt K k v) rest := rfl
    rw [step, set_many_options rest (set_opt K k v) o h.2]
    by_cases hk : o = k
    · subst hk
      rw [lookup_val_eq_none h.1]
      simp [lookup_val, override, set_opt]
    · cases hval : lookup_val o rest <;>
        simp [lookup_val, override, set_opt, hk, hval]

/-- The query-builder loop agrees with the spec-side description: no output
    when no whitelisted option is set, otherwise the joiner character before
    the first present pair and '&' before each later one, in whitelist
    order. -/
theorem query_options_eq_spec (options : API_Option → Option String) :
    ∀ (wl : List API_Option) (c : Char),
      query_options_string options wl c =
        match spec_pairs options wl with
        | [] => ""
        | p :: ps => String.singleton c ++ p ++ amp_join ps
  | [], _ => rfl
  | o :: rest, c => by
    cases h : options o with
    | none =>
      have := query_options_eq_spec options rest c
      simp [query_options_string, spec_pairs, List.filterMap_cons, h] at this ⊢
      exact this
    | some v =>
      have hr : query_options_string options rest '&' =
          amp_join (spec_pairs options rest) := by
        rw [query_options_eq_spec options rest '&']
        cases spec_pairs options rest
        · simp [amp_join]
        · simp [amp_join]
          rfl
      simp [query_options_string, spec_pairs, List.filterMap_cons, h, hr,
            String.append_assoc]

/-- The pure part of `query_private` on a well-formed credential: the
    private URL, the body with the nonce appended, and the two
    authentication headers, the signature being the base64 HMAC of
    "/0/private/" ++ path ++ SHA-256 (nonce ++ body) under the decoded
    secret. -/
theorem query_private_eq (sha256 : List Nat → List Nat)
    (hmac_sha512 : List Nat → List Nat → List Nat)
    (K : Kraken_API) (clock : Nat) (key : List Nat)
    (h1 : b64_decode K.secret = some key) (h2 : K.secret.length = 88) :
    query_private sha256 hmac_sha512 K clock =
      .request (url_base ++ "/private/" ++ (split_query_url K.query_url).1)
        (post_body_of (split_query_url K.query_url).2 (next_nonce clock))
        ["API-Key: " ++ K.key,
         "API-Sign: " ++ b64_encode (hmac_sha512 key
            (str_bytes "/0/private/" ++ str_bytes (split_query_url K.query_url).1
              ++ sha256 (str_bytes (next_nonce clock
                  ++ post_body_of (split_query_url K.query_url).2 (next_nonce clock)))))] := by
  unfold query_private api_sign
  rw [h1]
  simp [h2]

/-- Claim C1: for every private call, the API-Sign header value is exactly
    the five-step pipeline of the spec — SHA-256 over nonce ++ body as raw
    bytes, prepended with "/0/private/" and the endpoint path, HMAC-SHA-512
    under the base64-decoded secret, base64-encoded. -/
theorem claim_C1_signature_pipeline (sha256 : List Nat → List Nat)
    (hmac_sha512 : List Nat → List Nat → List Nat)
    (K : Kraken_API) (clock : Nat) (key : List Nat)
    (h1 : b64_decode K.secret = some key) (h2 : K.secret.length = 88) :
    query_private sha256 hmac_sha512 K clock =
      .request (url_base ++ "/private/" ++ (split_query_url K.query_url).1)
        (post_body_of (split_query_url K.query_url).2 (next_nonce clock))
        ["API-Key: " ++ K.key,
         "API-Sign: " ++ spec_signature sha256 hmac_sha512 key
            (split_query_url K.query_url).1 (next_nonce clock)
            (post_body_of (split_query_url K.query_url).2 (next_nonce clock))] := by
  rw [query_private_eq sha256 hmac_sha512 K clock key h1 h2]
  simp [spec_signature, str_bytes_append]

/-- Witness for C1 at a concrete credential, clock and state. -/
theorem claim_C1_signature_pipeline_witness :
    query_private (fun l => l) (fun k m => k ++ m)
        (connect "key" good_secret) 7 =
      .request (url_base ++ "/private/"
          ++ (split_query_url (connect "key" good_secret).query_url).1)
        (post_body_of (split_query_url (connect "key" good_secret).query_url).2
          (next_nonce 7))
        ["API-Key: " ++ (connect "key" good_secret).key,
         "API-Sign: " ++ spec_signature (fun l => l) (fun k m => k ++ m)
            (List.replicate 64 0)
            (split_query_url (connect "key" good_secret).query_url).1
            (next_nonce 7)
            (post_body_of (split_query_url (connect "key" good_secret).query_url).2
              (next_nonce 7))] :=
  claim_C1_signature_pipeline (fun l => l) (fun k m => k ++ m)
    (connect "key" good_secret) 7 (List.replicate 64 0) (by decide) (by decide)

/-- Claim C2: a private call with a secret whose length is not 88 fails
    synchronously with the credential-format error and never reaches the
    transport, while a public call performs no such check. -/
theorem claim_C2_length_gate (sha256 : List Nat → List Nat)
    (hmac_sha512 : List Nat → List Nat → List Nat)
    (K K2 : Kraken_API) (clock : Nat) (u b : String) (hd : List String)
    (h : K.secret.length ≠ 88) :
    query_private sha256 hmac_sha512 K clock
        = .err "private key must be 88 characters long"
    ∧ query_private sha256 hmac_sha512 K clock ≠ .request u b hd
    ∧ query_public K2 = .request (url_base ++ "/public/" ++ K2.query_url) "" [] := by
  refine ⟨?_, ?_, rfl⟩
  · unfold query_private
    rw [if_pos h]
  · unfold query_private
    rw [if_pos h]
    intro hc
    exact Private_Result.noConfusion hc

/-- Witness for C2: a 5-character secret is rejected without any request. -/
theorem claim_C2_length_gate_witness :
    query_private (fun l => l) (fun k m => k ++ m) (connect "k" "short") 0
        = .err "private key must be 88 characters long"
    ∧ query_private (fun l => l) (fun k m => k ++ m) (connect "k" "short") 0
        ≠ .request "u" "b" []
    ∧ query_public (connect "k" "short")
        = .request (url_base ++ "/public/" ++ (connect "k" "short").query_url) "" [] :=
  claim_C2_length_gate (fun l => l) (fun k m => k ++ m)
    (connect "k" "short") (connect "k" "short") 0 "u" "b" [] (by decide)

/-- Claim C3, counterexample: the code derives the nonce from the clock
    reading alone, so two calls at the same microsecond repeat a nonce —
    the sequence is not strictly increasing for every clock behaviour, and
    no max-with-last-plus-one is applied (otherwise the second nonce would
    have been "6"). -/
theorem claim_C3_counterexample :
    issued_nonces [5, 5] = ["5", "5"]
    ∧ ¬ List.Chain' (fun a b => a ≠ b) (issued_nonces [5, 5])
    ∧ issued_nonces [5, 5] ≠ ["5", "6"] := by
  refine ⟨by decide, ?_, by decide⟩
  intro h
  rw [show issued_nonces [5, 5] = ["5", "5"] from by decide] at h
  exact List.chain'_pair.mp h rfl

/-- Claim C3 as amended: each private call's nonce is exactly the current
    clock reading in microseconds, rendered in decimal; no last-issued value
    is retained, so the issued nonces are strictly increasing precisely when
    the clock readings are. -/
theorem claim_C3_amended_nonce_is_clock (ts : List Nat) (t : Nat) :
    (List.Chain' (· < ·) (ts.map nonce_of_call) ↔ List.Chain' (· < ·) ts)
    ∧ next_nonce t = toString (nonce_of_call t)
    ∧ nonce_of_call t = t := by
  refine ⟨?_, rfl, rfl⟩
  have hmap : ts.map nonce_of_call = ts := by
    induction ts with
    | nil => rfl
    | cons a rest ih => simp [nonce_of_call, ih]
  rw [hmap]

/-- Claim C4: the query builder emits exactly the whitelisted options that
    are set, in whitelist order, '?' before the first pair and '&' between
    pairs, appended to the endpoint path; on whitelist [INFO, START, END]
    and registry {START: "2", TXID: "x"} it emits exactly "?start=2". -/
theorem claim_C4_query_builder (options : API_Option → Option String)
    (wl : List API_Option) (K : Kraken_API) (e : String) :
    query_options_string options wl '?' = spec_query options wl
    ∧ (api_function K e wl .query_private_fn).K.query_url
        = e ++ spec_query K.options wl
    ∧ query_options_string ex_registry
        [API_Option.INFO, API_Option.START, API_Option.END] '?' = "?start=2" := by
  have main : ∀ (opts : API_Option → Option String),
      query_options_string opts wl '?' = spec_query opts wl := by
    intro opts
    rw [query_options_eq_spec opts wl '?']
    unfold spec_query
    cases spec_pairs opts wl
    · rfl
    · rfl
  refine ⟨main options, ?_, by decide⟩
  simp only [api_function, query_add_options]
  rw [main K.options]

/-- Claim C5: the POST body of a private call is the serialized query string
    with nonce=<value> appended — the sole parameter when the query string
    is empty, '&'-joined otherwise. -/
theorem claim_C5_post_body (sha256 : List Nat → List Nat)
    (hmac_sha512 : List Nat → List Nat → List Nat)
    (K : Kraken_API) (clock : Nat) (key : List Nat)
    (h1 : b64_decode K.secret = some key) (h2 : K.secret.length = 88) :
    result_body (query_private sha256 hmac_sha512 K clock) =
      some (if (split_query_url K.query_url).2 = ""
            then "nonce=" ++ next_nonce clock
            else (split_query_url K.query_url).2 ++ "&"
                  ++ ("nonce=" ++ next_nonce clock)) := by
  rw [query_private_eq sha256 hmac_sha512 K clock key h1 h2]
  simp only [result_body]
  unfold post_body_of
  by_cases hq : (split_query_url K.query_url).2 = ""
  · rw [if_pos hq]
    rw [if_pos (String.isEmpty_iff _ |>.mpr hq), hq]
    simp [String.append_assoc]
  · rw [if_neg hq]
    rw [if_neg (fun hc => hq ((String.isEmpty_iff _).mp hc))]
    rw [String.append_assoc]

/-- Witness for C5, the spec's end-to-end scenario: endpoint Balance with an
    empty query and clock reading 1700000000000000 yields the body
    "nonce=1700000000000000" as the sole parameter. -/
theorem claim_C5_post_body_witness :
    result_body (query_private (fun l => l) (fun k m => k ++ m)
        (api_function (connect "k" good_secret) "Balance" [] .query_private_fn).K
        1700000000000000) =
      some (if (split_query_url (api_function (connect "k" good_secret)
                  "Balance" [] .query_private_fn).K.query_url).2 = ""
            then "nonce=" ++ next_nonce 1700000000000000
            else (split_query_url (api_function (connect "k" good_secret)
                  "Balance" [] .query_private_fn).K.query_url).2 ++ "&"
                  ++ ("nonce=" ++ next_nonce 1700000000000000)) :=
  claim_C5_post_body (fun l => l) (fun k m => k ++ m)
    (api_function (connect "k" good_secret) "Balance" [] .query_private_fn).K
    1700000000000000 (List.replicate 64 0) (by decide) (by decide)

/-- Claim C6, evaluation at the failing input: an 88-character secret that
    is not valid base64 passes the length gate and then aborts the process
    (the source unwraps the failed decode), instead of returning a
    descriptive error value. -/
theorem claim_C6_invalid_base64_aborts :
    bad_secret.length = 88
    ∧ b64_decode bad_secret = none
    ∧ query_private (fun l => l) (fun k m => k ++ m)
        (connect "key" bad_secret) 0 = .panicked := by
  refine ⟨by decide, by decide, by decide⟩

/-- Claim C8: the signature is a deterministic function of the secret, the
    endpoint path, the nonce and the body — two computations with equal
    inputs produce identical header values. -/
theorem claim_C8_signature_deterministic (sha256 : List Nat → List Nat)
    (hmac_sha512 : List Nat → List Nat → List Nat)
    (s1 s2 p1 p2 n1 n2 b1 b2 : String)
    (h1 : s1 = s2) (h2 : p1 = p2) (h3 : n1 = n2) (h4 : b1 = b2) :
    api_sign sha256 hmac_sha512 s1 p1 n1 b1
      = api_sign sha256 hmac_sha512 s2 p2 n2 b2 := by
  rw [h1, h2, h3, h4]

/-- Witness for C8 at concrete inputs. -/
theorem claim_C8_signature_deterministic_witness :
    api_sign (fun l => l) (fun k m => k ++ m) "QQ==" "Balance" "5" "nonce=5"
      = api_sign (fun l => l) (fun k m => k ++ m) "QQ==" "Balance" "5" "nonce=5" :=
  claim_C8_signature_deterministic (fun l => l) (fun k m => k ++ m)
    "QQ==" "QQ==" "Balance" "Balance" "5" "5" "nonce=5" "nonce=5" rfl rfl rfl rfl

/-- Claim C7: a later `set_opt` overwrites the prior value, `clear_all`
    empties the registry, and clearing followed by setting a duplicate-free
    list of options leaves the registry holding exactly those entries,
    whatever the prior state. -/
theorem claim_C7_registry_reset (K : Kraken_API)
    (l : List (API_Option × String)) (o k : API_Option) (v w : String)
    (h : (l.map Prod.fst).Nodup) :
    (set_opt (set_opt K k w) k v).options k = some v
    ∧ (clear_all_options K).options o = none
    ∧ (set_many (clear_all_options K) l).options o = lookup_val o l := by
  refine ⟨by simp [set_opt], rfl, ?_⟩
  rw [set_many_options l (clear_all_options K) o h]
  cases lookup_val o l <;> simp [override, clear_all_options]

/-- Witness for C7: reset and re-set {START: "2", PAIR: "x"} on a populated
    handle, reading back START. -/
theorem claim_C7_registry_reset_witness :
    (set_opt (set_opt (connect "a" "b") API_Option.ASSET "old")
        API_Option.ASSET "new").options API_Option.ASSET = some "new"
    ∧ (clear_all_options (connect "a" "b")).options API_Option.START = none
    ∧ (set_many (clear_all_options (connect "a" "b"))
        [(API_Option.START, "2"), (API_Option.PAIR, "x")]).options API_Option.START
        = lookup_val API_Option.START
            [(API_Option.START, "2"), (API_Option.PAIR, "x")] :=
  claim_C7_registry_reset (connect "a" "b")
    [(API_Option.START, "2"), (API_Option.PAIR, "x")]
    API_Option.START API_Option.ASSET "new" "old" (by decide)

/-- Claim C9: `delete_export_report` aborts (models the `assert!` panic) for
    every type argument other than "delete" or "cancel"; under that
    precondition it sets the ID and TYPE options and dispatches the private
    RemoveExport request. -/
theorem claim_C9_delete_export_assert (K : Kraken_API) (id type_ other : String)
    (h : type_ = "delete" ∨ type_ = "cancel")
    (h2 : other ≠ "delete" ∧ other ≠ "cancel") :
    delete_export_report K id other = none
    ∧ ∃ r, delete_export_report K id type_ = some r
        ∧ r.end_point = "RemoveExport"
        ∧ r.K.options API_Option.ID = some id
        ∧ r.K.options API_Option.TYPE = some type_
        ∧ r.do_query = .query_private_fn
        ∧ r.whitelist = [API_Option.ID, API_Option.TYPE] := by
  constructor
  · unfold delete_export_report
    rw [if_neg]
    rintro (hc | hc)
    · exact h2.1 hc
    · exact h2.2 hc
  · unfold delete_export_report
    rw [if_pos h]
    refine ⟨_, rfl, rfl, ?_, ?_, rfl, rfl⟩
    · simp [api_function, query_add_options, set_opt]
    · simp [api_function, query_add_options, set_opt]

/-- Witness for C9: "delete" proceeds to the RemoveExport dispatch, "purge"
    aborts. -/
theorem claim_C9_delete_export_assert_witness :
    delete_export_report (connect "a" "b") "RPT1" "purge" = none
    ∧ ∃ r, delete_export_report (connect "a" "b") "RPT1" "delete" = some r
        ∧ r.end_point = "RemoveExport"
        ∧ r.K.options API_Option.ID = some "RPT1"
        ∧ r.K.options API_Option.TYPE = some "delete"
        ∧ r.do_query = .query_private_fn
        ∧ r.whitelist = [API_Option.ID, API_Option.TYPE] :=
  claim_C9_delete_export_assert (connect "a" "b") "RPT1" "delete" "purge"
    (Or.inl rfl) ⟨by decide, by decide⟩

/-- Claim C10: `edit_order` dispatches to the endpoint named "AddOrder",
    the same endpoint name `add_order` uses, with a whitelist containing
    TXID and CANCEL_RESPONSE. -/
theorem claim_C10_edit_order_endpoint (K : Kraken_API)
    (tx_id pair volume : String) (ot : Order_Type) (dir : Instruction) :
    (edit_order K tx_id pair).end_point = "AddOrder"
    ∧ (add_order K ot dir volume pair).end_point = "AddOrder"
    ∧ (edit_order K tx_id pair).end_point
        = (add_order K ot dir volume pair).end_point
    ∧ API_Option.TXID ∈ (edit_order K tx_id pair).whitelist
    ∧ API_Option.CANCEL_RESPONSE ∈ (edit_order K tx_id pair).whitelist := by
  refine ⟨rfl, rfl, rfl, ?_, ?_⟩ <;> simp [edit_order, api_function]

end KrakenApi
